import Mathlib

/-!
Verification of the AiJobHelper mock-interview application.

This file shallowly embeds the string-processing core of the repository:
the job-description parser (`src/components/Upload/FileUpload.tsx`), the
question generator (`SkillAnalysis` component in the same file), the answer
evaluator (`src/components/Interview/AnswerEvaluator.tsx`) and the zustand
store (`src/store/useInterviewStore.ts`).

Strings are modelled as `List Char` (`JStr`), JavaScript's `includes` as
contiguous-sublist containment, and the regular expressions used by the
extractors through a small backtracking matcher (`RE` / `sfx`) whose
priority order reproduces JavaScript's leftmost-first, greedy,
ordered-alternation semantics.
-/

namespace AiJobHelper

/-- Strings of the embedded program: JavaScript strings as lists of characters. -/
abbrev JStr := List Char

/-- Literal JavaScript string. -/
def js (s : String) : JStr := s.toList

/-- JavaScript whitespace (`\s`, `String.prototype.trim`): the ASCII whitespace
characters together with NBSP.  (The full Unicode set also has exotic spaces;
none of them occur in this development.) -/
def jsWS (c : Char) : Bool :=
  c == ' ' || c == '\t' || c == '\n' || c == '\r' ||
  c == Char.ofNat 11 || c == Char.ofNat 12 || c == Char.ofNat 160

/-- `String.prototype.toLowerCase` (ASCII behaviour). -/
def toLowerStr (s : JStr) : JStr := s.map Char.toLower

/-- `String.prototype.toUpperCase` (ASCII behaviour). -/
def toUpperStr (s : JStr) : JStr := s.map Char.toUpper

/-- `haystack.includes(needle)`: contiguous substring containment. -/
def containsStr (h n : JStr) : Bool := decide (n <:+: h)

/-- Left part of `String.prototype.trim`. -/
def trimL (s : JStr) : JStr := s.dropWhile jsWS

/-- `String.prototype.trim`. -/
def trim (s : JStr) : JStr := ((trimL s).reverse.dropWhile jsWS).reverse

/-- Case-insensitive `startsWith`, used for `/i`-flagged literals. -/
def startsWithCI : JStr → JStr → Bool
  | [], _ => true
  | _ :: _, [] => false
  | c :: cs, d :: ds => (c.toLower == d.toLower) && startsWithCI cs ds

/-- Case-sensitive `startsWith` for unflagged literals. -/
def startsWithCS : JStr → JStr → Bool
  | [], _ => true
  | _ :: _, [] => false
  | c :: cs, d :: ds => (c == d) && startsWithCS cs ds

/-- Regular expressions as used by the extractors: literals (case-insensitive
and case-sensitive), character classes, sequence, ordered alternation, and
greedy star over a character class (every quantifier in the source's patterns
ranges over a single character class). -/
inductive RE where
  | eps : RE
  | cls (p : Char → Bool) : RE
  | lit (cs : JStr) : RE
  | litCS (cs : JStr) : RE
  | seq (a b : RE) : RE
  | alt (a b : RE) : RE
  | star (p : Char → Bool) : RE

/-- All suffixes remaining after a match of `r` against a prefix of `s`,
in JavaScript's backtracking priority order (greedy quantifiers longest
first, alternatives in written order). -/
def sfx : RE → JStr → List JStr
  | .eps, s => [s]
  | .cls p, s =>
    match s with
    | [] => []
    | c :: rest => if p c then [rest] else []
  | .lit cs, s => if startsWithCI cs s then [s.drop cs.length] else []
  | .litCS cs, s => if startsWithCS cs s then [s.drop cs.length] else []
  | .seq a b, s => (sfx a s).flatMap (sfx b)
  | .alt a b, s => sfx a s ++ sfx b s
  | .star p, s =>
    let m := (s.takeWhile p).length
    (List.range (m + 1)).map (fun k => s.drop (m - k))

/-- A class that never matches; the unit of alternation. -/
def reFail : RE := .cls (fun _ => false)

/-- Ordered alternation of a list of regexes. -/
def alts (l : List RE) : RE := l.foldr .alt reFail

/-- Greedy `+` over a character class. -/
def rePlus (p : Char → Bool) : RE := .seq (.cls p) (.star p)

/-- Greedy `?`. -/
def reOpt (a : RE) : RE := .alt a .eps

/-- Capture of the highest-priority match of `pre` followed by the capture
group `grp` at the start of `s` (the group is final in every source
pattern, so nothing constrains the input after it). -/
def capAt (pre grp : RE) (s : JStr) : Option JStr :=
  (sfx pre s).findSome? (fun ra =>
    ((sfx grp ra).head?).map (fun rb => ra.take (ra.length - rb.length)))

/-- Leftmost match of `pre`-then-`grp` anywhere in `s`, returning the
capture; then the source's `if (match && match[1])` truthiness check
discards an empty capture. -/
def jsCap1 (pre grp : RE) (s : JStr) : Option JStr :=
  match s.tails.findSome? (capAt pre grp) with
  | some c => if c.isEmpty then none else some c
  | none => none

/-- Suffixes of the input that begin at a line start (for `^` with the `m`
flag: position 0 and every position directly after `\n` or `\r`). -/
def lineStartTails : Option Char → JStr → List JStr
  | prev, [] =>
    if prev.elim true (fun c => c == '\n' || c == '\r') then [[]] else []
  | prev, c :: rest =>
    (if prev.elim true (fun d => d == '\n' || d == '\r') then [c :: rest] else []) ++
      lineStartTails (some c) rest

/-- Like `jsCap1` but with the whole pattern anchored at line starts
(`/^.../im`). -/
def jsCap1LS (pre grp : RE) (s : JStr) : Option JStr :=
  match (lineStartTails none s).findSome? (capAt pre grp) with
  | some c => if c.isEmpty then none else some c
  | none => none

/-- Leftmost whole-match (`match[0]`) of `r` in `s`. -/
def jsMatch0 (r : RE) (s : JStr) : Option JStr :=
  s.tails.findSome? (fun t =>
    ((sfx r t).head?).map (fun rem => t.take (t.length - rem.length)))

/-- `[^\n\r]`. -/
def notNL (c : Char) : Bool := !(c == '\n' || c == '\r')

/-- `[A-Z]`. -/
def isUpperAZ (c : Char) : Bool := 'A' ≤ c && c ≤ 'Z'

/-- `[a-z]`. -/
def isLowerAZ (c : Char) : Bool := 'a' ≤ c && c ≤ 'z'

/-- `\d`. -/
def isDigitC (c : Char) : Bool := '0' ≤ c && c ≤ '9'

/-- `[a-zA-Z]`. -/
def isAlphaC (c : Char) : Bool := isUpperAZ c || isLowerAZ c

/-- `[a-zA-Z\s&]`. -/
def nameSpAmp (c : Char) : Bool := isAlphaC c || jsWS c || c == '&'

/-- `[\s-]`. -/
def spDash (c : Char) : Bool := jsWS c || c == '-'

/-! ## Job-description extraction (`FileUpload.tsx`, lines 27-161) -/

/-- The fixed keyword list of `extractSkillsFromText`. -/
def commonSkills : List JStr :=
  [js "JavaScript", js "Python", js "Java", js "React", js "Node.js", js "SQL",
   js "AWS", js "Docker", js "Git",
   js "TypeScript", js "Angular", js "Vue.js", js "MongoDB", js "PostgreSQL",
   js "Redis", js "Kubernetes",
   js "GraphQL", js "REST API", js "Microservices", js "CI/CD", js "Jenkins",
   js "Linux", js "Agile",
   js "HTML", js "CSS", js "Express.js", js "Spring Boot", js "Django",
   js "Flask", js "C++", js "C#",
   js "Go", js "Rust", js "PHP", js "Ruby", js "Swift", js "Kotlin",
   js "Scala", js "R", js "MATLAB"]

/-- `skill.toLowerCase().replace(/[.\s]/g, '')`: drop dots and whitespace. -/
def stripDotWS (s : JStr) : JStr := s.filter (fun c => !(c == '.' || jsWS c))

/-- The filter predicate of `extractSkillsFromText`: the skill occurs in the
lowercased text directly or with dots/spaces removed. -/
def skillMentioned (textLower skill : JStr) : Bool :=
  containsStr textLower (toLowerStr skill) ||
  containsStr textLower (stripDotWS (toLowerStr skill))

/-- The `found` list of `extractSkillsFromText`. -/
def skillsFound (text : JStr) : List JStr :=
  commonSkills.filter (skillMentioned (toLowerStr text))

/-- `Math.max(3, Math.floor(found.length * 0.7))`.  For every `n ≤ 39`
(the size of `commonSkills`) the double product `n * 0.7` floors to
`n * 7 / 10`, so natural-number arithmetic is exact here. -/
def splitPoint (n : ℕ) : ℕ := max 3 (n * 7 / 10)

/-- Result of `extractSkillsFromText`. -/
structure SkillSplit where
  required : List JStr
  preferred : List JStr
deriving DecidableEq

/-- `extractSkillsFromText` (`FileUpload.tsx` lines 66-87). -/
def extractSkillsFromText (text : JStr) : SkillSplit :=
  let found := skillsFound text
  { required := found.take (splitPoint found.length),
    preferred := found.drop (splitPoint found.length) }

/-- The language keyword list of `extractLanguagesFromText`. -/
def languagesList : List JStr :=
  [js "JavaScript", js "Python", js "Java", js "C++", js "C#", js "TypeScript",
   js "Go", js "Rust", js "PHP", js "Ruby", js "Swift", js "Kotlin"]

/-- `extractLanguagesFromText` (lines 89-93). -/
def extractLanguagesFromText (text : JStr) : List JStr :=
  languagesList.filter (fun l => containsStr (toLowerStr text) (toLowerStr l))

/-- The tool keyword list of `extractToolsFromText`. -/
def toolsList : List JStr :=
  [js "Git", js "Docker", js "Kubernetes", js "AWS", js "Azure", js "GCP",
   js "Jenkins", js "MongoDB", js "PostgreSQL", js "Redis"]

/-- `extractToolsFromText` (lines 95-99). -/
def extractToolsFromText (text : JStr) : List JStr :=
  toolsList.filter (fun t => containsStr (toLowerStr text) (toLowerStr t))

/-- The soft-skill keyword list of `extractSoftSkillsFromText`. -/
def softSkillsList : List JStr :=
  [js "Communication", js "Teamwork", js "Leadership", js "Problem Solving",
   js "Time Management", js "Adaptability"]

/-- `extractSoftSkillsFromText` (lines 101-110): note the source's filter also
accepts every skill once the text mentions team/collaborate/communicate. -/
def extractSoftSkillsFromText (text : JStr) : List JStr :=
  softSkillsList.filter (fun sk =>
    containsStr (toLowerStr text) (toLowerStr sk) ||
    containsStr (toLowerStr text) (js "team") ||
    containsStr (toLowerStr text) (js "collaborate") ||
    containsStr (toLowerStr text) (js "communicate"))

/-- Title pattern 1, `/(?:position|role|job title|title):\s*([^\n\r]+)/i`:
part before the capture group. -/
def titleRE1pre : RE :=
  .seq (alts [.lit (js "position"), .lit (js "role"), .lit (js "job title"),
              .lit (js "title")])
    (.seq (.lit (js ":")) (.star jsWS))

/-- Title pattern 1: the capture group `([^\n\r]+)`. -/
def titleRE1grp : RE := rePlus notNL

/-- Title pattern 2, capture group of
`/^([^\n\r]*(?:developer|engineer|analyst|manager|lead|senior|junior)[^\n\r]*)/im`. -/
def titleRE2grp : RE :=
  .seq (.star notNL)
    (.seq (alts [.lit (js "developer"), .lit (js "engineer"), .lit (js "analyst"),
                 .lit (js "manager"), .lit (js "lead"), .lit (js "senior"),
                 .lit (js "junior")])
      (.star notNL))

/-- Title pattern 3, `/hiring\s+(?:for\s+)?([^\n\r]+)/i`: part before the
capture group. -/
def titleRE3pre : RE :=
  .seq (.lit (js "hiring"))
    (.seq (rePlus jsWS) (reOpt (.seq (.lit (js "for")) (rePlus jsWS))))

/-- First title pattern applied to the text. -/
def titleMatch1 (s : JStr) : Option JStr := jsCap1 titleRE1pre titleRE1grp s

/-- Second title pattern (multiline-anchored) applied to the text. -/
def titleMatch2 (s : JStr) : Option JStr := jsCap1LS .eps titleRE2grp s

/-- Third title pattern applied to the text. -/
def titleMatch3 (s : JStr) : Option JStr := jsCap1 titleRE3pre titleRE1grp s

/-- `extractTitleFromText` (lines 112-127): first pattern whose match has a
truthy first capture wins; default "Software Developer". -/
def extractTitleFromText (text : JStr) : JStr :=
  match [titleMatch1, titleMatch2, titleMatch3].findSome? (fun m => m text) with
  | some c => trim c
  | none => js "Software Developer"

/-- Company pattern 1, `/(?:company|organization|employer):\s*([^\n\r]+)/i`:
part before the capture group. -/
def compRE1pre : RE :=
  .seq (alts [.lit (js "company"), .lit (js "organization"), .lit (js "employer")])
    (.seq (.lit (js ":")) (.star jsWS))

/-- The shared capture group of company patterns 2 and 3,
`([A-Z][a-zA-Z\s&]+(?:Inc|LLC|Corp|Ltd|Company))` (case-sensitive). -/
def compGrpCore : RE :=
  .seq (.cls isUpperAZ)
    (.seq (rePlus nameSpAmp)
      (alts [.litCS (js "Inc"), .litCS (js "LLC"), .litCS (js "Corp"),
             .litCS (js "Ltd"), .litCS (js "Company")]))

/-- Company pattern 2, `/(?:at|@)\s+([A-Z][a-zA-Z\s&]+(?:Inc|LLC|Corp|Ltd|Company))/`:
part before the capture group (case-sensitive). -/
def compRE2pre : RE :=
  .seq (alts [.litCS (js "at"), .litCS (js "@")]) (rePlus jsWS)

/-- First company pattern applied to the text. -/
def compMatch1 (s : JStr) : Option JStr := jsCap1 compRE1pre titleRE1grp s

/-- Second company pattern applied to the text. -/
def compMatch2 (s : JStr) : Option JStr := jsCap1 compRE2pre compGrpCore s

/-- Third company pattern applied to the text. -/
def compMatch3 (s : JStr) : Option JStr := jsCap1 .eps compGrpCore s

/-- `extractCompanyFromText` (lines 129-144). -/
def extractCompanyFromText (text : JStr) : JStr :=
  match [compMatch1, compMatch2, compMatch3].findSome? (fun m => m text) with
  | some c => trim c
  | none => js "TechCorp Inc."

/-- Experience pattern 1,
`/(\d+)[\s-]*(?:to[\s-]*(\d+))?\s*years?\s*(?:of\s*)?experience/i`. -/
def expRE1 : RE :=
  .seq (rePlus isDigitC)
    (.seq (.star spDash)
      (.seq (reOpt (.seq (.lit (js "to")) (.seq (.star spDash) (rePlus isDigitC))))
        (.seq (.star jsWS)
          (.seq (.lit (js "year"))
            (.seq (reOpt (.lit (js "s")))
              (.seq (.star jsWS)
                (.seq (reOpt (.seq (.lit (js "of")) (.star jsWS)))
                  (.lit (js "experience")))))))))

/-- Experience pattern 2, `/(\d+)\+?\s*years?\s*(?:of\s*)?experience/i`. -/
def expRE2 : RE :=
  .seq (rePlus isDigitC)
    (.seq (reOpt (.lit (js "+")))
      (.seq (.star jsWS)
        (.seq (.lit (js "year"))
          (.seq (reOpt (.lit (js "s")))
            (.seq (.star jsWS)
              (.seq (reOpt (.seq (.lit (js "of")) (.star jsWS)))
                (.lit (js "experience"))))))))

/-- Experience pattern 3, `/experience:\s*(\d+[\s-]*(?:to[\s-]*\d+)?\s*years?)/i`. -/
def expRE3 : RE :=
  .seq (.lit (js "experience"))
    (.seq (.lit (js ":"))
      (.seq (.star jsWS)
        (.seq (rePlus isDigitC)
          (.seq (.star spDash)
            (.seq (reOpt (.seq (.lit (js "to")) (.seq (.star spDash) (rePlus isDigitC))))
              (.seq (.star jsWS)
                (.seq (.lit (js "year")) (reOpt (.lit (js "s"))))))))))

/-- `extractExperienceFromText` (lines 146-161): returns `match[0]` of the
first matching pattern (each pattern's first group is a `\d+`, hence truthy
whenever the pattern matches); default "2-5 years". -/
def extractExperienceFromText (text : JStr) : JStr :=
  match [expRE1, expRE2, expRE3].findSome? (fun r => jsMatch0 r text) with
  | some m => m
  | none => js "2-5 years"

/-- The `JobDescription` record of `types/index.ts`. -/
structure JobDescription where
  title : JStr
  company : JStr
  requiredSkills : List JStr
  preferredSkills : List JStr
  description : JStr
  experience : JStr
  languages : List JStr
  tools : List JStr
  softSkills : List JStr
deriving DecidableEq

/-- The rejection message for too-short input. -/
def shortErr : JStr := js "Job description too short (minimum 50 characters)"

/-- The rejection message when no required skills are found. -/
def noSkillsErr : JStr :=
  js "No technical skills found. Please include programming languages and tools."

/-- `parseJobDescription` (`FileUpload.tsx` lines 27-64).  The promise
rejection paths become `Except.error`; the `catch`-all rejection is
unreachable because no extractor throws. -/
def parseJobDescription (text : JStr) : Except JStr JobDescription :=
  if text.isEmpty || (trim text).length < 50 then .error shortErr
  else
    let sk := extractSkillsFromText text
    if sk.required.isEmpty then .error noSkillsErr
    else .ok
      { title := extractTitleFromText text,
        company := extractCompanyFromText text,
        requiredSkills := sk.required,
        preferredSkills := sk.preferred,
        languages := extractLanguagesFromText text,
        tools := extractToolsFromText text,
        softSkills := extractSoftSkillsFromText text,
        description := text,
        experience := extractExperienceFromText text }

/-! ## Question generation (`SkillAnalysis` component, `generateQuestions`) -/

/-- The `type` literal union of `Question`. -/
inductive QType where
  | coding
  | sql
  | theoretical
  | behavioral
deriving DecidableEq, Repr

/-- The `difficulty` literal union of `Question`. -/
inductive Difficulty where
  | easy
  | medium
  | hard
deriving DecidableEq, Repr

/-- The `Question` record of `types/index.ts`. -/
structure Question where
  id : JStr
  type : QType
  question : JStr
  difficulty : Difficulty
  language : Option JStr := none
  expectedAnswer : Option JStr := none
  hints : Option (List JStr) := none
  category : JStr
  points : ℕ
deriving DecidableEq

/-- `(questionId++).toString()`: decimal rendering of the running counter. -/
def natId (n : ℕ) : JStr := js (toString n)

/-- The three per-language coding templates, with ids `qid`, `qid+1`, `qid+2`. -/
def codingTemplates (qid : ℕ) (language : JStr) : List Question :=
  [{ id := natId qid, type := .coding,
     question := js "Implement a function to reverse a string without using built-in reverse methods in " ++ language,
     difficulty := .easy, language := some (toLowerStr language),
     category := js "Data Structures", points := 10 },
   { id := natId (qid + 1), type := .coding,
     question := js "Write a function to find the second largest number in an array using " ++ language,
     difficulty := .medium, language := some (toLowerStr language),
     category := js "Algorithms", points := 15 },
   { id := natId (qid + 2), type := .coding,
     question := js "Implement a binary search algorithm in " ++ language,
     difficulty := .medium, language := some (toLowerStr language),
     category := js "Search Algorithms", points := 20 }]

/-- The `forEach` over the job description's languages: the first language
keeps 3 of the templates, every further language keeps 2; the id counter
advances by 3 per language because the source builds all three templates
before slicing. -/
def codingFor : ℕ → ℕ → List JStr → List Question
  | _, _, [] => []
  | qid, idx, l :: ls =>
    (codingTemplates qid l).take (if idx = 0 then 3 else 2) ++
      codingFor (qid + 3) (idx + 1) ls

/-- The five canned SQL questions, ids `qid`..`qid+4`. -/
def sqlQuestions (qid : ℕ) : List Question :=
  [{ id := natId qid, type := .sql,
     question := js "Write a query to find the second highest salary from an Employee table",
     difficulty := .medium, category := js "Database Queries", points := 15 },
   { id := natId (qid + 1), type := .sql,
     question := js "Create a query to find employees who earn more than their managers",
     difficulty := .hard, category := js "Complex Joins", points := 25 },
   { id := natId (qid + 2), type := .sql,
     question := js "Write a query to calculate running totals using window functions",
     difficulty := .hard, category := js "Window Functions", points := 25 },
   { id := natId (qid + 3), type := .sql,
     question := js "Design a query to find duplicate records in a table",
     difficulty := .medium, category := js "Data Analysis", points := 15 },
   { id := natId (qid + 4), type := .sql,
     question := js "Write a query to pivot data from rows to columns",
     difficulty := .hard, category := js "Data Transformation", points := 25 }]

/-- The ten canned theoretical questions, ids `qid`..`qid+9`. -/
def theoreticalQuestions (qid : ℕ) : List Question :=
  [{ id := natId qid, type := .theoretical,
     question := js "Explain the difference between REST and GraphQL APIs",
     difficulty := .medium, category := js "API Design", points := 15 },
   { id := natId (qid + 1), type := .theoretical,
     question := js "What are the SOLID principles in object-oriented programming?",
     difficulty := .medium, category := js "OOP Concepts", points := 15 },
   { id := natId (qid + 2), type := .theoretical,
     question := js "Explain database normalization and its benefits",
     difficulty := .medium, category := js "Database Design", points := 15 },
   { id := natId (qid + 3), type := .theoretical,
     question := js "What is the difference between synchronous and asynchronous programming?",
     difficulty := .easy, category := js "Programming Concepts", points := 10 },
   { id := natId (qid + 4), type := .theoretical,
     question := js "Explain microservices architecture and its advantages",
     difficulty := .hard, category := js "System Design", points := 25 },
   { id := natId (qid + 5), type := .theoretical,
     question := js "What are design patterns and give examples of commonly used ones?",
     difficulty := .medium, category := js "Design Patterns", points := 15 },
   { id := natId (qid + 6), type := .theoretical,
     question := js "Explain the concept of Big O notation and time complexity",
     difficulty := .medium, category := js "Algorithm Analysis", points := 15 },
   { id := natId (qid + 7), type := .theoretical,
     question := js "What is containerization and how does Docker work?",
     difficulty := .medium, category := js "DevOps", points := 15 },
   { id := natId (qid + 8), type := .theoretical,
     question := js "Explain the CAP theorem in distributed systems",
     difficulty := .hard, category := js "Distributed Systems", points := 25 },
   { id := natId (qid + 9), type := .theoretical,
     question := js "What are the principles of clean code?",
     difficulty := .easy, category := js "Code Quality", points := 10 }]

/-- The five canned behavioral questions, ids `qid`..`qid+4`. -/
def behavioralQuestions (qid : ℕ) : List Question :=
  [{ id := natId qid, type := .behavioral,
     question := js "Tell me about a time when you had to learn a new technology quickly for a project",
     difficulty := .medium, category := js "Learning Agility", points := 15 },
   { id := natId (qid + 1), type := .behavioral,
     question := js "Describe a situation where you had to work with a difficult team member",
     difficulty := .medium, category := js "Teamwork", points := 15 },
   { id := natId (qid + 2), type := .behavioral,
     question := js "Tell me about a time when you made a mistake in your code. How did you handle it?",
     difficulty := .medium, category := js "Problem Solving", points := 15 },
   { id := natId (qid + 3), type := .behavioral,
     question := js "Describe a project you\x27re most proud of and your role in it",
     difficulty := .easy, category := js "Achievement", points := 10 },
   { id := natId (qid + 4), type := .behavioral,
     question := js "How do you handle tight deadlines and pressure?",
     difficulty := .medium, category := js "Stress Management", points := 15 }]

/-- Whether some required skill mentions SQL (the guard of the SQL block). -/
def wantsSQL (jd : JobDescription) : Bool :=
  jd.requiredSkills.any (fun sk => containsStr (toLowerStr sk) (js "sql"))

/-- `generateQuestions` (`SkillAnalysis`, `FileUpload.tsx` part 2, lines
504-723).  `jobDescription.languages || [...]` always yields the parsed
`languages` array (an empty JS array is truthy), so the fallback list is
dead code; the `!jobDescription || !skillGaps` early return is dropped here
because a parsed job description is in hand and `skillGaps` is always an
array (hence truthy). -/
def generateQuestions (jd : JobDescription) : List Question :=
  let coding := codingFor 1 0 jd.languages
  let qid2 := 1 + 3 * jd.languages.length
  let sql := if wantsSQL jd then sqlQuestions qid2 else []
  let qid3 := qid2 + (if wantsSQL jd then 5 else 0)
  coding ++ sql ++ theoreticalQuestions qid3 ++ behavioralQuestions (qid3 + 10)

/-- Number of questions of a given type in a battery. -/
def countType (t : QType) (l : List Question) : ℕ :=
  (l.filter (fun q => q.type = t)).length

/-! ## Answer evaluation (`AnswerEvaluator.tsx`) -/

/-- `Array.prototype.join(sep)`. -/
def joinSep (sep : JStr) : List JStr → JStr
  | [] => []
  | [x] => x
  | x :: y :: rest => x ++ sep ++ joinSep sep (y :: rest)

/-- `input.replace(/\s+/g, '').toLowerCase()`. -/
def cleanedOf (input : JStr) : JStr :=
  (input.filter (fun c => !jsWS c)).map Char.toLower

/-- `/^[a-z]{3,}$/.test(cleaned)`. -/
def allLowerAlpha3 (s : JStr) : Bool := 3 ≤ s.length && s.all isLowerAZ

/-- Word characters for the `\b` boundary (`[A-Za-z0-9_]`). -/
def wordChar (c : Char) : Bool := isAlphaC c || isDigitC c || c == '_'

/-- The code keywords of the random-characters check. -/
def codeKeywords : List JStr :=
  [js "function", js "class", js "def", js "select", js "if", js "for",
   js "while", js "return", js "print", js "console"]

/-- A keyword occurs at the head of `s` with a word boundary after it. -/
def kwMatchAt (kw s : JStr) : Bool :=
  startsWithCS kw s &&
    (match s.drop kw.length with
     | [] => true
     | c :: _ => !wordChar c)

/-- Scan for `/\b(function|class|def|select|if|for|while|return|print|console)\b/`,
carrying the previous character to decide the left boundary. -/
def hasKWFrom : Option Char → JStr → Bool
  | prev, [] =>
    prev.elim true (fun c => !wordChar c) && codeKeywords.any (fun kw => kwMatchAt kw [])
  | prev, c :: rest =>
    (prev.elim true (fun d => !wordChar d) &&
      codeKeywords.any (fun kw => kwMatchAt kw (c :: rest))) ||
    hasKWFrom (some c) rest

/-- `/\b(...)\b/.test(s)` for the code-keyword alternation. -/
def hasCodeKeyword (s : JStr) : Bool := hasKWFrom none s

/-- JavaScript line terminators (not matched by `.`). -/
def isLineTerm (c : Char) : Bool :=
  c == '\n' || c == '\r' || c == Char.ofNat 0x2028 || c == Char.ofNat 0x2029

/-- `/(.)\1{4,}/.test(s)`: five equal consecutive characters, the first not a
line terminator. -/
def rep5 : JStr → Bool
  | a :: b :: c :: d :: e :: rest =>
    (!isLineTerm a && a == b && b == c && c == d && d == e) ||
      rep5 (b :: c :: d :: e :: rest)
  | _ => false

/-- The keyboard-mash substrings. -/
def mashPatterns : List JStr :=
  [js "asdf", js "qwer", js "zxcv", js "hjkl", js "1234", js "abcd"]

/-- Some mash pattern occurs in `s`. -/
def hasMash (s : JStr) : Bool := mashPatterns.any (fun p => containsStr s p)

/-- `isNonsenseInput` (`AnswerEvaluator.tsx` lines 93-109). -/
def isNonsenseInput (input : JStr) : Bool :=
  let cleaned := cleanedOf input
  if allLowerAlpha3 cleaned && !hasCodeKeyword cleaned then true
  else if rep5 cleaned then true
  else hasMash cleaned

/-- Return type of `evaluateCode` and its per-language helpers. -/
structure CodeResult where
  score : ℚ
  feedback : JStr
  isCorrect : Bool
  fixedCode : Option JStr := none
deriving DecidableEq

/-- Return type of `evaluateTheoretical` / `evaluateByCategory`. -/
structure TheoResult where
  score : ℚ
  feedback : JStr
  isCorrect : Bool
  idealAnswer : Option JStr := none
deriving DecidableEq

/-- Return type of `evaluateBehavioral` / `evaluateSTARMethod`. -/
structure StarResult where
  score : ℚ
  feedback : JStr
  isCorrect : Bool
  starAnalysis : Option JStr := none
deriving DecidableEq

/-- `getJavaScriptFix` (lines 443-445). -/
def getJavaScriptFix (_q : Question) : JStr :=
  js "Here\x27s the corrected JavaScript approach with proper syntax and logic."

/-- `getPythonFix` (lines 447-449). -/
def getPythonFix (_q : Question) : JStr :=
  js "Here\x27s the corrected Python solution with proper indentation and structure."

/-- `getSQLFix` (lines 451-453). -/
def getSQLFix (_q : Question) : JStr :=
  js "Here\x27s the corrected SQL query with proper syntax and logic."

/-- `generateJavaScriptFix` (lines 359-399). -/
def generateJavaScriptFix (q : Question) : JStr :=
  if containsStr (toLowerStr q.question) (js "reverse") then
    js "// Correct solution for reversing a string\nfunction reverseString(str) \x7b\n    let reversed = \x27\x27;\n    for (let i = str.length - 1; i >= 0; i--) \x7b\n        reversed += str[i];\n    \x7d\n    return reversed;\n\x7d\n\nconsole.log(reverseString(\"hello\")); // \"olleh\""
  else if containsStr (toLowerStr q.question) (js "second largest") then
    js "// Correct solution for second largest number\nfunction secondLargest(arr) \x7b\n    let largest = -Infinity;\n    let secondLargest = -Infinity;\n    \n    for (let num of arr) \x7b\n        if (num > largest) \x7b\n            secondLargest = largest;\n            largest = num;\n        \x7d else if (num > secondLargest && num < largest) \x7b\n            secondLargest = num;\n        \x7d\n    \x7d\n    \n    return secondLargest;\n\x7d\n\nconsole.log(secondLargest([1, 5, 3, 9, 2])); // 5"
  else
    js "// Fixed code with proper structure\nfunction solution() \x7b\n    // Your implementation here\n    return result;\n\x7d"

/-- `generatePythonFix` (lines 401-417). -/
def generatePythonFix (q : Question) : JStr :=
  if containsStr (toLowerStr q.question) (js "reverse") then
    js "# Correct solution for reversing a string\ndef reverse_string(s):\n    reversed_str = \"\"\n    for i in range(len(s) - 1, -1, -1):\n        reversed_str += s[i]\n    return reversed_str\n\nprint(reverse_string(\"hello\"))  # \"olleh\""
  else
    js "# Fixed Python code\ndef solution():\n    # Your implementation here\n    return result"

/-- `generateSQLFix` (lines 419-441). -/
def generateSQLFix (q : Question) : JStr :=
  if containsStr (toLowerStr q.question) (js "second highest") then
    js "-- Correct solution for second highest salary\nSELECT salary \nFROM Employee \nORDER BY salary DESC \nLIMIT 1 OFFSET 1;\n\n-- Alternative using window functions\nSELECT DISTINCT salary\nFROM (\n    SELECT salary, \n           ROW_NUMBER() OVER (ORDER BY salary DESC) as rn\n    FROM Employee\n) ranked\nWHERE rn = 2;"
  else
    js "-- Fixed SQL query\nSELECT column_name\nFROM table_name\nWHERE condition;"

/-- `getIdealAnswer` (lines 455-462). -/
def getIdealAnswer (q : Question) : JStr :=
  if containsStr (toLowerStr q.question) (js "rest") &&
     containsStr (toLowerStr q.question) (js "graphql") then
    js "REST uses multiple endpoints for different resources with standard HTTP methods, while GraphQL uses a single endpoint where clients specify exactly what data they need. GraphQL prevents over-fetching and under-fetching, offers strong typing, and provides better developer tools, but REST is simpler and has better caching."
  else
    js "A comprehensive answer should cover the main concepts, provide examples, and explain the practical implications."

/-- `evaluateJavaScript` (lines 112-165).  The `new Function(code)` call of the
source hands the submission to the host JavaScript engine; it is modelled by
the oracle `jsParseOk`, which reports whether that compilation throws. -/
def evaluateJavaScript (jsParseOk : JStr → Bool) (code : JStr) (q : Question) :
    CodeResult :=
  let qLower := toLowerStr q.question
  let issues0 : List JStr :=
    if !(containsStr code (js "function") || containsStr code (js "=>") ||
         containsStr code (js "const") || containsStr code (js "let")) then
      [js "Missing function declaration"]
    else []
  let p1 : List JStr × ℚ :=
    if containsStr qLower (js "reverse") then
      if containsStr code (js ".reverse()") then
        (issues0 ++ [js "You used the built-in reverse() method, but the question asks to implement without built-in methods"], 3)
      else if containsStr code (js "for") || containsStr code (js "while") then
        (issues0, 8)
      else (issues0 ++ [js "Consider using a loop to reverse the string"], 4)
    else (issues0, 0)
  let p2 : List JStr × ℚ :=
    if containsStr qLower (js "second largest") then
      if containsStr code (js "sort") then
        (p1.1 ++ [js "Sorting works but is not the most efficient approach (O(n log n))"], 6)
      else if containsStr code (js "Math.max") then (p1.1, 7)
      else (p1.1 ++ [js "Consider tracking the largest and second largest values in a single pass"], 5)
    else p1
  let p3 : List JStr × ℚ :=
    if jsParseOk code then (p2.1, p2.2 + 2)
    else (p2.1 ++ [js "Syntax error detected"], max 0 (p2.2 - 2))
  { score := min 10 p3.2,
    feedback :=
      if 0 < p3.1.length then
        js "Issues found: " ++ joinSep (js ", ") p3.1 ++ js ". " ++ getJavaScriptFix q
      else js "Good solution! Your code demonstrates proper JavaScript syntax and logic.",
    isCorrect := decide ((7 : ℚ) ≤ p3.2),
    fixedCode := if 0 < p3.1.length then some (generateJavaScriptFix q) else none }

/-- `evaluatePython` (lines 168-205). -/
def evaluatePython (code : JStr) (q : Question) : CodeResult :=
  let qLower := toLowerStr q.question
  let i1 : List JStr :=
    if !(containsStr code (js "def ") || containsStr code (js "lambda")) then
      [js "Missing function definition"]
    else []
  let i2 : List JStr :=
    i1 ++ (if !containsStr code (js "return") then [js "Missing return statement"] else [])
  let i3 : List JStr :=
    i2 ++ (if containsStr code (js "def ") && !containsStr code (js "    ") then
             [js "Python requires proper indentation"]
           else [])
  let p4 : List JStr × ℚ :=
    if containsStr qLower (js "reverse") then
      if containsStr code (js "[::-1]") then
        (i3 ++ [js "You used slicing, but try implementing without built-in methods"], 6)
      else if containsStr code (js "for") || containsStr code (js "while") then (i3, 8)
      else (i3, 0)
    else (i3, 0)
  let score : ℚ :=
    p4.2 + (if p4.1.length = 0 then 8 else max 2 (6 - (p4.1.length : ℚ)))
  { score := min 10 score,
    feedback :=
      if 0 < p4.1.length then
        js "Issues: " ++ joinSep (js ", ") p4.1 ++ js ". " ++ getPythonFix q
      else js "Excellent Python code! Good use of syntax and logic.",
    isCorrect := decide ((7 : ℚ) ≤ score),
    fixedCode := if 0 < p4.1.length then some (generatePythonFix q) else none }

/-- `evaluateSQL` (lines 208-251). -/
def evaluateSQL (code : JStr) (q : Question) : CodeResult :=
  let qLower := toLowerStr q.question
  let upper := toUpperStr code
  let hasBasic := containsStr upper (js "SELECT") && containsStr upper (js "FROM")
  let p1 : List JStr × ℚ :=
    if !hasBasic then ([js "Missing basic SELECT...FROM structure"], 1) else ([], 5)
  let p2 : List JStr × ℚ :=
    if containsStr qLower (js "second highest") then
      if containsStr upper (js "LIMIT") && containsStr upper (js "OFFSET") then (p1.1, 8)
      else if containsStr upper (js "ROW_NUMBER()") || containsStr upper (js "RANK()") then
        (p1.1, 9)
      else (p1.1 ++ [js "Consider using LIMIT with OFFSET or window functions for second highest"], 4)
    else p1
  let p3 : List JStr × ℚ :=
    if containsStr qLower (js "join") then
      if !containsStr upper (js "JOIN") then
        (p2.1 ++ [js "This question requires a JOIN operation"], 2)
      else (p2.1, 8)
    else p2
  { score := min 10 p3.2,
    feedback :=
      if 0 < p3.1.length then
        js "SQL Issues: " ++ joinSep (js ", ") p3.1 ++ js ". " ++ getSQLFix q
      else js "Great SQL query! Proper syntax and logic.",
    isCorrect := decide ((7 : ℚ) ≤ p3.2),
    fixedCode := if 0 < p3.1.length then some (generateSQLFix q) else none }

/-- `evaluateGenericCode` (lines 464-488). -/
def evaluateGenericCode (code : JStr) (_q : Question) : CodeResult :=
  let p1 : List JStr × ℚ :=
    if code.length < 10 then ([js "Code is too short"], 1)
    else if 20 < code.length then ([], 5)
    else ([], 0)
  let score : ℚ :=
    p1.2 + (if containsStr code (js "if") || containsStr code (js "for") ||
               containsStr code (js "while") then 2 else 0)
  { score := min 10 score,
    feedback :=
      if 0 < p1.1.length then
        js "Issues: " ++ joinSep (js ", ") p1.1 ++ js ". Please provide a more complete solution."
      else js "Code structure looks reasonable.",
    isCorrect := decide ((6 : ℚ) ≤ score),
    fixedCode := none }

/-- The effective language of the dispatch in `evaluateCode`:
`question.language?.toLowerCase() || 'javascript'` (an absent language and an
empty string both fall back to `javascript`). -/
def effectiveLanguage (q : Question) : JStr :=
  match q.language with
  | none => js "javascript"
  | some l => if (toLowerStr l).isEmpty then js "javascript" else toLowerStr l

/-- `evaluateCode` (lines 6-39).  The `case 'java'` branch calls
`this.evaluateJava`, a method that is defined nowhere in the class, so at
run time the dispatch throws `TypeError: this.evaluateJava is not a
function`; that branch is therefore modelled as `none`, every other branch
as `some` of its handler's result. -/
def evaluateCode (jsParseOk : JStr → Bool) (code : JStr) (q : Question) :
    Option CodeResult :=
  if code.isEmpty || (trim code).isEmpty then
    some { score := 0,
           feedback := js "No code provided. Please write a solution to the problem.",
           isCorrect := false }
  else if isNonsenseInput code then
    some { score := 0,
           feedback := js "This is not valid code. Please write a proper function or solution.",
           isCorrect := false }
  else
    let language := effectiveLanguage q
    if language = js "javascript" then some (evaluateJavaScript jsParseOk code q)
    else if language = js "python" then some (evaluatePython code q)
    else if language = js "java" then none
    else if language = js "sql" then some (evaluateSQL code q)
    else some (evaluateGenericCode code q)

/-- `evaluateByCategory` (lines 254-317). -/
def evaluateByCategory (answer : JStr) (q : Question) : TheoResult :=
  let qLower := toLowerStr q.question
  let aLower := toLowerStr answer
  let restCond := containsStr qLower (js "rest") && containsStr qLower (js "graphql")
  let scoreA : ℚ :=
    if restCond then
      (if (containsStr aLower (js "rest") || containsStr aLower (js "representational")) &&
          (containsStr aLower (js "graphql") || containsStr aLower (js "graph ql")) then 4
       else 0) +
      (if containsStr aLower (js "http") || containsStr aLower (js "endpoint") then 2 else 0) +
      (if containsStr aLower (js "query") || containsStr aLower (js "single endpoint") then 2
       else 0) +
      (if containsStr aLower (js "over-fetching") || containsStr aLower (js "under-fetching")
       then 2 else 0)
    else 0
  let fbR : List JStr :=
    if restCond && scoreA < 6 then
      [js "Try explaining the key differences: REST uses multiple endpoints, GraphQL uses a single endpoint with flexible queries"]
    else []
  let solidCond := containsStr qLower (js "solid")
  let principles : List JStr :=
    [js "singleresponsibility", js "openclosed", js "liskovsubstitution",
     js "interfacesegregation", js "dependencyinversion"]
  let scoreB : ℚ :=
    if solidCond then ((principles.filter (containsStr aLower)).length : ℚ) * 2 else scoreA
  let fbS : List JStr :=
    if solidCond && scoreB < 6 then
      [js "SOLID includes: Single Responsibility, Open/Closed, Liskov Substitution, Interface Segregation, Dependency Inversion"]
    else []
  let microCond := containsStr qLower (js "microservices")
  let concepts : List JStr :=
    [js "independent", js "scalable", js "distributed", js "api", js "database",
     js "deployment"]
  let scoreC : ℚ :=
    if microCond then min 8 (((concepts.filter (containsStr aLower)).length : ℚ) * 1.5)
    else scoreB
  let fbM : List JStr :=
    if microCond && scoreC < 6 then
      [js "Mention key aspects: independent services, separate databases, API communication, independent deployment"]
    else []
  let score : ℚ :=
    if scoreC = 0 then
      if 100 < answer.length then 6 else if 50 < answer.length then 4 else 2
    else scoreC
  let fbs := fbR ++ fbS ++ fbM
  { score := min 10 score,
    feedback :=
      if 0 < fbs.length then joinSep (js ". ") fbs
      else if (7 : ℚ) ≤ score then js "Good explanation! You covered the key concepts well."
      else js "Your answer touches on some points, but could be more comprehensive.",
    isCorrect := decide ((7 : ℚ) ≤ score),
    idealAnswer := some (getIdealAnswer q) }

/-- `evaluateTheoretical` (lines 42-69). -/
def evaluateTheoretical (answer : JStr) (q : Question) : TheoResult :=
  if answer.isEmpty || (trim answer).isEmpty then
    { score := 0,
      feedback := js "No answer provided. Please explain the concept or provide your thoughts.",
      isCorrect := false }
  else if isNonsenseInput answer then
    { score := 0,
      feedback := js "I couldn\x27t evaluate that. Could you provide a real answer explaining the concept?",
      isCorrect := false }
  else if (trim answer).length < 10 then
    { score := 2,
      feedback := js "Your answer is too brief. Please provide more detailed explanation with examples if possible.",
      isCorrect := false }
  else evaluateByCategory answer q

/-- `evaluateSTARMethod` (lines 320-356). -/
def evaluateSTARMethod (answer : JStr) (_q : Question) : StarResult :=
  let aLower := toLowerStr answer
  let hasSituation := containsStr aLower (js "situation") || containsStr aLower (js "when") ||
    containsStr aLower (js "time") || containsStr aLower (js "project")
  let hasTask := containsStr aLower (js "task") || containsStr aLower (js "responsible") ||
    containsStr aLower (js "needed to") || containsStr aLower (js "had to")
  let hasAction := containsStr aLower (js "action") || containsStr aLower (js "did") ||
    containsStr aLower (js "implemented") || containsStr aLower (js "decided")
  let hasResult := containsStr aLower (js "result") || containsStr aLower (js "outcome") ||
    containsStr aLower (js "achieved") || containsStr aLower (js "improved")
  let starElements : List JStr :=
    (if hasSituation then [js "Situation"] else []) ++
    (if hasTask then [js "Task"] else []) ++
    (if hasAction then [js "Action"] else []) ++
    (if hasResult then [js "Result"] else [])
  let score : ℚ :=
    (if hasSituation then 2 else 0) + (if hasTask then 2 else 0) +
    (if hasAction then 3 else 0) + (if hasResult then 3 else 0) +
    (if 200 < answer.length then 1 else 0)
  let missing : List JStr :=
    ([js "Situation", js "Task", js "Action", js "Result"]).filter
      (fun e => !starElements.contains e)
  { score := min 10 score,
    feedback :=
      if (8 : ℚ) ≤ score then
        js "Excellent STAR format! You clearly described the situation, task, actions, and results."
      else if (6 : ℚ) ≤ score then
        js "Good structure! Consider adding more detail about: " ++ joinSep (js ", ") missing ++ js "."
      else
        js "Try using the STAR method: Situation (context), Task (what needed to be done), Action (what you did), Result (outcome). Missing: " ++ joinSep (js ", ") missing ++ js ".",
    isCorrect := decide ((7 : ℚ) ≤ score),
    starAnalysis := some
      (js "STAR Elements Found: " ++ joinSep (js ", ") starElements ++
        (if 0 < missing.length then js ". Missing: " ++ joinSep (js ", ") missing else [])) }

/-- `evaluateBehavioral` (lines 72-90). -/
def evaluateBehavioral (answer : JStr) (q : Question) : StarResult :=
  if answer.isEmpty || (trim answer).isEmpty then
    { score := 0,
      feedback := js "No answer provided. Please share a specific example from your experience.",
      isCorrect := false }
  else if isNonsenseInput answer then
    { score := 0,
      feedback := js "I couldn\x27t evaluate that. Please provide a real example from your experience.",
      isCorrect := false }
  else evaluateSTARMethod answer q

/-! ## The zustand store (`useInterviewStore.ts`) -/

/-- The `status` union of `SkillGap`. -/
inductive GapStatus where
  | match_
  | partial_
  | missing
deriving DecidableEq

/-- The `SkillGap` record of `types/index.ts`. -/
structure SkillGap where
  skill : JStr
  resumeLevel : ℚ
  requiredLevel : ℚ
  gap : ℚ
  status : GapStatus
deriving DecidableEq

/-- The `Badge` record of `types/index.ts`; a `Date` becomes a timestamp. -/
structure Badge where
  id : JStr
  name : JStr
  description : JStr
  icon : JStr
  earned : Bool
  earnedAt : Option ℕ := none
  xpValue : ℕ
deriving DecidableEq

/-- The `Answer` record of `types/index.ts`. -/
structure AnswerR where
  questionId : JStr
  userAnswer : JStr
  code : Option JStr := none
  score : ℚ
  feedback : JStr
  timeSpent : ℚ
  attempts : ℕ
  isCorrect : Option Bool := none
  aiExplanation : Option JStr := none
deriving DecidableEq

/-- The `InterviewSession` record of `types/index.ts`. -/
structure InterviewSession where
  id : JStr
  userId : JStr
  questions : List Question
  answers : List AnswerR
  startTime : ℕ
  endTime : Option ℕ := none
  overallScore : ℚ
  skillScores : List (JStr × ℚ) := []
  currentQuestionIndex : ℕ
  totalQuestions : ℕ
  badges : List Badge := []
  xpEarned : ℚ
deriving DecidableEq

/-- The `interviewPhase` union. -/
inductive Phase where
  | setup
  | coding
  | sql
  | theoretical
  | behavioral
  | complete
deriving DecidableEq

/-- The `currentView` union. -/
inductive View where
  | upload
  | analysis
  | interview
  | results
  | settings
deriving DecidableEq

/-- The `VoiceSettings` record. -/
structure VoiceSettings where
  isEnabled : Bool
  language : JStr
  rate : ℚ
  pitch : ℚ
  volume : ℚ
deriving DecidableEq

/-- The `AccessibilitySettings` record. -/
structure AccessibilitySettings where
  highContrast : Bool
  largeText : Bool
  screenReader : Bool
  reducedMotion : Bool
deriving DecidableEq

/-- The `UserProgress` record; `Record<string, number>` becomes an
association list. -/
structure UserProgress where
  totalXP : ℤ
  level : ℤ
  completedInterviews : ℕ
  skillLevels : List (JStr × ℚ) := []
  achievements : List Badge := []
deriving DecidableEq

/-- The data fields of the interview store (actions are modelled as functions
on this state). -/
structure StoreState where
  jobDescription : Option JobDescription
  skillGaps : List SkillGap
  userProgress : UserProgress
  currentSession : Option InterviewSession
  currentQuestion : Option Question
  currentQuestionIndex : ℕ
  isInterviewActive : Bool
  interviewPhase : Phase
  isDarkMode : Bool
  currentView : View
  isLoading : Bool
  error : Option JStr
  voiceSettings : VoiceSettings
  accessibilitySettings : AccessibilitySettings
  isVoiceEnabled : Bool
  isSpeaking : Bool
deriving DecidableEq

/-- The initial state of the store (`useInterviewStore.ts` lines 70-103). -/
def initialState : StoreState :=
  { jobDescription := none,
    skillGaps := [],
    userProgress :=
      { totalXP := 0, level := 1, completedInterviews := 0, skillLevels := [],
        achievements := [] },
    currentSession := none,
    currentQuestion := none,
    currentQuestionIndex := 0,
    isInterviewActive := false,
    interviewPhase := .setup,
    isDarkMode := false,
    currentView := .upload,
    isLoading := false,
    error := none,
    voiceSettings :=
      { isEnabled := true, language := js "en-US", rate := 1, pitch := 1,
        volume := 0.8 },
    accessibilitySettings :=
      { highContrast := false, largeText := false, screenReader := false,
        reducedMotion := false },
    isVoiceEnabled := true,
    isSpeaking := false }

/-- The phase selected for a question type
(`q.type === 'coding' ? 'coding' : ... : 'behavioral'`). -/
def phaseOf : QType → Phase
  | .coding => .coding
  | .sql => .sql
  | .theoretical => .theoretical
  | .behavioral => .behavioral

/-- `startInterview` (lines 112-145); `Date.now()` becomes the `now`
parameter.  When the questions array is empty, `questions[0] || null` is
`null` and the optional-chained type checks all fail, giving phase
`'behavioral'`.  The `catch` branch is unreachable: the body only builds
objects. -/
def startInterview (now : ℕ) (questions : List Question) (s : StoreState) :
    StoreState :=
  let session : InterviewSession :=
    { id := natId now, userId := js "user", questions := questions, answers := [],
      startTime := now, endTime := none, overallScore := 0, skillScores := [],
      currentQuestionIndex := 0, totalQuestions := questions.length, badges := [],
      xpEarned := 0 }
  { s with
    currentSession := some session,
    currentQuestion := questions.head?,
    currentQuestionIndex := 0,
    isInterviewActive := true,
    currentView := .interview,
    interviewPhase :=
      match questions.head? with
      | some q => phaseOf q.type
      | none => .behavioral,
    error := none }

/-- `addXP` (lines 364-377): `Math.floor(newTotalXP / 1000) + 1` on integers. -/
def addXP (amount : ℤ) (s : StoreState) : StoreState :=
  let newTotal := s.userProgress.totalXP + amount
  let up := { s.userProgress with
    totalXP := newTotal,
    level := Int.floor ((newTotal : ℚ) / 1000) + 1 }
  { s with userProgress := up }

/-- `submitAnswer` (lines 147-163): appends the answer and awards
`Math.floor(score * 10)` XP; no-op without a session. -/
def submitAnswer (a : AnswerR) (s : StoreState) : StoreState :=
  match s.currentSession with
  | none => s
  | some sess =>
    let s1 := addXP (Int.floor (a.score * 10)) s
    { s1 with
      currentSession := some { sess with answers := sess.answers ++ [a] },
      error := none }

/-- `endInterview` (lines 189-225); `new Date()` becomes `now`. -/
def endInterview (now : ℕ) (s : StoreState) : StoreState :=
  match s.currentSession with
  | none => s
  | some sess =>
    let totalScore : ℚ :=
      if 0 < sess.answers.length then
        ((sess.answers.map (·.score)).sum) / (sess.answers.length : ℚ)
      else 0
    { s with
      currentSession := some { sess with endTime := some now, overallScore := totalScore },
      isInterviewActive := false,
      currentView := .results,
      interviewPhase := .complete,
      userProgress :=
        { s.userProgress with
          completedInterviews := s.userProgress.completedInterviews + 1 },
      error := none }

/-- `nextQuestion` (lines 165-187). -/
def nextQuestion (now : ℕ) (s : StoreState) : StoreState :=
  match s.currentSession with
  | none => s
  | some sess =>
    let nextIndex := s.currentQuestionIndex + 1
    if h : nextIndex < sess.questions.length then
      let nq := sess.questions.get ⟨nextIndex, h⟩
      { s with
        currentQuestionIndex := nextIndex,
        currentQuestion := some nq,
        interviewPhase := phaseOf nq.type,
        error := none }
    else endInterview now s

/-- `retryQuestion` (lines 227-248): drops every answer for the current
question; `questions[idx]?.id` is `undefined` out of bounds, in which case
the string inequality `answer.questionId !== currentQuestionId` keeps every
answer. -/
def retryQuestion (s : StoreState) : StoreState :=
  match s.currentSession with
  | none => s
  | some sess =>
    let cqId : Option JStr := (sess.questions[s.currentQuestionIndex]?).map (·.id)
    { s with
      currentSession := some
        { sess with
          answers := sess.answers.filter (fun a => !(some a.questionId = cqId : Bool)) },
      error := none }

/-- The fields picked by `partialize` (lines 429-434): the persisted slice of
the store. -/
structure PersistedState where
  isDarkMode : Bool
  voiceSettings : VoiceSettings
  accessibilitySettings : AccessibilitySettings
  userProgress : UserProgress
deriving DecidableEq

/-- `partialize` (lines 429-434). -/
def partialize (s : StoreState) : PersistedState :=
  { isDarkMode := s.isDarkMode,
    voiceSettings := s.voiceSettings,
    accessibilitySettings := s.accessibilitySettings,
    userProgress := s.userProgress }

/-- The interview-phase actions a running interview can receive. -/
inductive Act where
  | submit (a : AnswerR)
  | retry
  | next (now : ℕ)

/-- One store action step. -/
def stepAct : Act → StoreState → StoreState
  | .submit a, s => submitAnswer a s
  | .retry, s => retryQuestion s
  | .next now, s => nextQuestion now s

/-- A sequence of store actions. -/
def runActs (acts : List Act) (s : StoreState) : StoreState :=
  acts.foldl (fun st a => stepAct a st) s

/-- The session invariant of claim C10: while the interview is active, the
index is in bounds and the current question is the indexed one. -/
def Inv (s : StoreState) : Prop :=
  s.isInterviewActive = true →
    ∃ sess, s.currentSession = some sess ∧
      s.currentQuestionIndex < sess.questions.length ∧
      s.currentQuestion = sess.questions[s.currentQuestionIndex]?

/-! ## Concrete inputs used by counterexamples and witnesses -/

/-- A job-description text that parses successfully but whose required
skills do not mention SQL. -/
def exText : JStr :=
  js "We need JavaScript and Python and Java developers with Git and Docker experience."

/-- A behavioral question from the canned battery. -/
def qBehavioralEx : Question :=
  { id := js "26", type := .behavioral,
    question := js "Tell me about a time when you had to learn a new technology quickly for a project",
    difficulty := .medium, category := js "Learning Agility", points := 15 }

/-- A Java coding question exactly as `generateQuestions` builds it for the
language `Java`. -/
def qJavaEx : Question :=
  { id := js "7", type := .coding,
    question := js "Implement a function to reverse a string without using built-in reverse methods in Java",
    difficulty := .easy, language := some (js "java"),
    category := js "Data Structures", points := 10 }

/-- A JavaScript coding question as built by `generateQuestions`. -/
def qRevJS : Question :=
  { id := js "1", type := .coding,
    question := js "Implement a function to reverse a string without using built-in reverse methods in JavaScript",
    difficulty := .easy, language := some (js "javascript"),
    category := js "Data Structures", points := 10 }

/-- A question whose `language` field is `sql`. -/
def qSQLEx : Question :=
  { id := js "8", type := .sql,
    question := js "Write a query to find the second highest salary from an Employee table",
    difficulty := .medium, language := some (js "sql"),
    category := js "Database Queries", points := 15 }

/-- A syntactically plausible code submission mentioning `function` and `for`. -/
def cRev : JStr := js "function f(s) \x7b for(;;) \x7d"

/-- A plausible Java submission (non-empty, not nonsense). -/
def cJava : JStr := js "public int f(x) \x7b return x; \x7d"

/-- A behavioral answer containing the word situation together with
punctuation (so the nonsense check does not fire). -/
def wAns : JStr := js "In one situation, I resolved it."

/-! ## Generic lemmas -/

/-- `includes` agrees with contiguous-sublist containment. -/
theorem containsStr_iff {h n : JStr} : containsStr h n = true ↔ n <:+: h := by
  simp [containsStr]

/-- An `if` between two nonnegative rationals is nonnegative. -/
theorem qIteNonneg (c : Prop) [Decidable c] {a b : ℚ} (ha : 0 ≤ a) (hb : 0 ≤ b) :
    0 ≤ if c then a else b := by
  split <;> assumption

/-! ## Claim C1 -/

/-- The number of coding questions produced for a language list: three for
the first language, two for each further one. -/
def codingCount : List JStr → ℕ
  | [] => 0
  | _ :: ls => 3 + 2 * ls.length

theorem countType_append (t : QType) (l1 l2 : List Question) :
    countType t (l1 ++ l2) = countType t l1 + countType t l2 := by
  simp [countType, List.filter_append]

theorem countType_nil (t : QType) : countType t [] = 0 := rfl

theorem countType_uniform_eq (l : List Question) (ty : QType)
    (h : ∀ q ∈ l, q.type = ty) :
    countType ty l = l.length := by
  unfold countType
  rw [List.filter_length_eq_length.mpr]
  intro a ha
  simp [h a ha]

theorem countType_uniform_ne (l : List Question) (ty t : QType)
    (h : ∀ q ∈ l, q.type = ty) (hne : t ≠ ty) :
    countType t l = 0 := by
  unfold countType
  rw [List.length_eq_zero, List.filter_eq_nil_iff]
  intro a ha
  simp [h a ha]
  exact fun hc => hne hc.symm

theorem countType_uniform (l : List Question) (ty t : QType)
    (h : ∀ q ∈ l, q.type = ty) :
    countType t l = if t = ty then l.length else 0 := by
  by_cases hty : t = ty
  · subst hty; simp [countType_uniform_eq l t h]
  · simp [hty, countType_uniform_ne l ty t h hty]

theorem type_codingTemplates (qid : ℕ) (l : JStr) :
    ∀ q ∈ codingTemplates qid l, q.type = .coding := by
  intro q hq
  simp [codingTemplates] at hq
  rcases hq with h | h | h <;> subst h <;> rfl

theorem type_codingFor :
    ∀ (ls : List JStr) (qid idx : ℕ) (q : Question),
      q ∈ codingFor qid idx ls → q.type = .coding := by
  intro ls
  induction ls with
  | nil => intro qid idx q hq; simp [codingFor] at hq
  | cons l ls ih =>
    intro qid idx q hq
    simp only [codingFor, List.mem_append] at hq
    rcases hq with hq | hq
    · exact type_codingTemplates qid l q (List.take_subset _ _ hq)
    · exact ih _ _ q hq

theorem type_sqlQuestions (n : ℕ) : ∀ q ∈ sqlQuestions n, q.type = .sql := by
  intro q hq
  simp [sqlQuestions] at hq
  rcases hq with h | h | h | h | h <;> subst h <;> rfl

theorem type_theoreticalQuestions (n : ℕ) :
    ∀ q ∈ theoreticalQuestions n, q.type = .theoretical := by
  intro q hq
  simp [theoreticalQuestions] at hq
  rcases hq with h | h | h | h | h | h | h | h | h | h <;> subst h <;> rfl

theorem type_behavioralQuestions (n : ℕ) :
    ∀ q ∈ behavioralQuestions n, q.type = .behavioral := by
  intro q hq
  simp [behavioralQuestions] at hq
  rcases hq with h | h | h | h | h <;> subst h <;> rfl

theorem codingFor_length :
    ∀ (ls : List JStr) (qid idx : ℕ),
      (codingFor qid idx ls).length =
        if idx = 0 then codingCount ls else 2 * ls.length := by
  intro ls
  induction ls with
  | nil => intro qid idx; simp [codingFor, codingCount]
  | cons l ls ih =>
    intro qid idx
    simp only [codingFor, List.length_append, List.length_take]
    rw [ih]
    by_cases h : idx = 0
    · subst h
      simp [codingCount, codingTemplates]
    · simp [h, codingCount, codingTemplates]
      omega

theorem countType_sqlQuestions (t : QType) (n : ℕ) :
    countType t (sqlQuestions n) = if t = .sql then 5 else 0 := by
  rw [countType_uniform (sqlQuestions n) .sql t (type_sqlQuestions n)]
  simp [sqlQuestions]

theorem countType_theoreticalQuestions (t : QType) (n : ℕ) :
    countType t (theoreticalQuestions n) = if t = .theoretical then 10 else 0 := by
  rw [countType_uniform (theoreticalQuestions n) .theoretical t (type_theoreticalQuestions n)]
  simp [theoreticalQuestions]

theorem countType_behavioralQuestions (t : QType) (n : ℕ) :
    countType t (behavioralQuestions n) = if t = .behavioral then 5 else 0 := by
  rw [countType_uniform (behavioralQuestions n) .behavioral t (type_behavioralQuestions n)]
  simp [behavioralQuestions]

theorem countType_codingFor (t : QType) (qid idx : ℕ) (ls : List JStr) :
    countType t (codingFor qid idx ls) =
      if t = .coding then (codingFor qid idx ls).length else 0 := by
  rw [countType_uniform (codingFor qid idx ls) .coding t (type_codingFor ls qid idx)]

/-- Claim C1 (corrected): the generated battery always holds exactly 10
theoretical and 5 behavioral questions; the 5 SQL questions are present
exactly when some required skill mentions sql; the coding questions come
from the job description's languages (3 for the first language, 2 for each
further one, none if the language list is empty).  The claim's assertion
that every parsed job description receives all four types (in particular 5
SQL questions) is refuted by the accompanying counterexample. -/
theorem generateQuestions_counts (jd : JobDescription) :
    countType .theoretical (generateQuestions jd) = 10 ∧
    countType .behavioral (generateQuestions jd) = 5 ∧
    countType .sql (generateQuestions jd) = (if wantsSQL jd then 5 else 0) ∧
    countType .coding (generateQuestions jd) = codingCount jd.languages := by
  unfold generateQuestions
  by_cases h : wantsSQL jd <;>
    refine ⟨?_, ?_, ?_, ?_⟩ <;>
      simp [h, countType_append, countType_codingFor, countType_sqlQuestions,
        countType_theoreticalQuestions, countType_behavioralQuestions,
        codingFor_length, countType_nil]

set_option maxRecDepth 100000 in
/-- Claim C1, counterexample: `exText` parses successfully (its required
skills are JavaScript, Python, Java, Docker) yet the generated battery
contains no SQL question at all, and has 22 questions rather than about 30. -/
theorem generateQuestions_no_sql_counterexample :
    (parseJobDescription exText).toOption.map
        (fun jd => (countType QType.sql (generateQuestions jd),
                    (generateQuestions jd).length)) = some (0, 22) := by
  rfl

/-! ## Claim C4 -/

/-- Claim C4 (code bug): `evaluateCode` is not total.  For a non-empty,
non-nonsense submission and a question whose language is `java` — exactly
what `generateQuestions` produces when the job description lists Java — the
dispatch reaches `case 'java': return this.evaluateJava(code, question)`,
and `evaluateJava` is defined nowhere in `AnswerEvaluator`, so the call
throws a `TypeError` instead of returning a result (modelled as `none`). -/
theorem evaluateCode_java_throws :
    cJava ≠ [] ∧
    isNonsenseInput cJava = false ∧
    effectiveLanguage qJavaEx = js "java" ∧
    evaluateCode (fun _ => true) cJava qJavaEx = none := by
  refine ⟨by decide, by decide, by decide, rfl⟩

/-! ## Claim C8 -/

/-- Claim C8 (confirmed): the persisted slice of the store is exactly
`isDarkMode`, `voiceSettings`, `accessibilitySettings` and `userProgress`:
two states produce the same persisted object precisely when they agree on
those four fields, so every other field (job description, skill gaps,
session with its answers, current question and index, activity flag, phase,
view, loading flag, error) is excluded from persistence. -/
theorem partialize_exactly_ui_prefs (s t : StoreState) :
    partialize s = partialize t ↔
      (s.isDarkMode = t.isDarkMode ∧ s.voiceSettings = t.voiceSettings ∧
       s.accessibilitySettings = t.accessibilitySettings ∧
       s.userProgress = t.userProgress) := by
  simp [partialize, PersistedState.mk.injEq]

/-! ## Claim C7 -/

/-- Claim C7 (confirmed): `extractTitleFromText` returns the trimmed first
capture of the first of its three title patterns that matches (with a truthy
capture), and "Software Developer" when none does; `extractCompanyFromText`
does the same over its three company patterns with default "TechCorp Inc.". -/
theorem extract_title_company_cascade (t : JStr) :
    (extractTitleFromText t =
      match titleMatch1 t with
      | some c => trim c
      | none =>
        match titleMatch2 t with
        | some c => trim c
        | none =>
          match titleMatch3 t with
          | some c => trim c
          | none => js "Software Developer") ∧
    (extractCompanyFromText t =
      match compMatch1 t with
      | some c => trim c
      | none =>
        match compMatch2 t with
        | some c => trim c
        | none =>
          match compMatch3 t with
          | some c => trim c
          | none => js "TechCorp Inc.") := by
  constructor
  · unfold extractTitleFromText
    cases h1 : titleMatch1 t <;> cases h2 : titleMatch2 t <;> cases h3 : titleMatch3 t <;>
      simp [List.findSome?, h1, h2, h3]
  · unfold extractCompanyFromText
    cases h1 : compMatch1 t <;> cases h2 : compMatch2 t <;> cases h3 : compMatch3 t <;>
      simp [List.findSome?, h1, h2, h3]

/-! ## Claim C5 -/

/-- Whether a parse produced a job description. -/
def isOkE : Except JStr JobDescription → Bool
  | .ok _ => true
  | .error _ => false

/-- Claim C5 (confirmed): `parseJobDescription` rejects with the too-short
message exactly when the trimmed text has fewer than 50 characters (the
`!text` check is subsumed: an empty text trims to length 0); among longer
texts it rejects with the no-technical-skills message exactly when the
extracted required-skill list is empty; otherwise it resolves, and the
resolved job description's `description` field is the pasted text unchanged. -/
theorem parseJobDescription_spec (t : JStr) :
    (parseJobDescription t = .error shortErr ↔ (trim t).length < 50) ∧
    (parseJobDescription t = .error noSkillsErr ↔
      (50 ≤ (trim t).length ∧ (extractSkillsFromText t).required = [])) ∧
    (∀ jd, parseJobDescription t = .ok jd → jd.description = t) := by
  by_cases hs : (trim t).length < 50
  · have hp : parseJobDescription t = .error shortErr := by
      unfold parseJobDescription
      have hc : (t.isEmpty || decide ((trim t).length < 50)) = true := by simp [hs]
      simp [hc]
    refine ⟨by simp [hp, hs], ?_, ?_⟩
    · rw [hp]
      constructor
      · intro he
        exact absurd (Except.error.inj he) (by decide)
      · rintro ⟨h50, -⟩
        omega
    · intro jd hjd
      rw [hp] at hjd
      cases hjd
  · have h50 : 50 ≤ (trim t).length := by omega
    have hne : t.isEmpty = false := by
      cases t with
      | nil => simp [trim, trimL] at h50
      | cons c cs => rfl
    have hc : (t.isEmpty || decide ((trim t).length < 50)) = false := by simp [hne, hs]
    by_cases hreq : (extractSkillsFromText t).required.isEmpty
    · have hp : parseJobDescription t = .error noSkillsErr := by
        unfold parseJobDescription
        simp [hc, hreq]
      refine ⟨?_, ?_, ?_⟩
      · rw [hp]
        constructor
        · intro he
          exact absurd (Except.error.inj he) (by decide)
        · intro hlt
          omega
      · rw [hp]
        simp [h50, List.isEmpty_iff.mp hreq]
      · intro jd hjd
        rw [hp] at hjd
        cases hjd
    · have hne_err : ∀ e, parseJobDescription t ≠ .error e := by
        intro e he
        unfold parseJobDescription at he
        simp [hc, hreq] at he
      refine ⟨?_, ?_, ?_⟩
      · constructor
        · intro he
          exact absurd he (hne_err _)
        · intro hlt
          omega
      · constructor
        · intro he
          exact absurd he (hne_err _)
        · rintro ⟨-, hr⟩
          rw [hr] at hreq
          simp at hreq
      · intro jd hjd
        unfold parseJobDescription at hjd
        simp [hc, hreq] at hjd
        rw [← hjd]

set_option maxRecDepth 100000 in
/-- Claim C5, witness: the concrete text `exText` passes both checks and
resolves with its `description` equal to the input. -/
theorem parseJobDescription_spec_w :
    (parseJobDescription exText).toOption.map (fun jd => jd.description) =
      some exText := by
  have hok : isOkE (parseJobDescription exText) = true := by rfl
  have h := (parseJobDescription_spec exText).2.2
  cases heq : parseJobDescription exText with
  | ok jd =>
    have hd := h jd heq
    simp [Except.toOption, hd]
  | error e =>
    rw [heq] at hok
    simp [isOkE] at hok

/-! ## Claim C6 -/

/-- Claim C6 (confirmed): every extracted skill (required or preferred) is a
member of the fixed `commonSkills` list and occurs case-insensitively in the
text (directly or with dots and spaces removed); with `n` skills found the
required list is the first `max 3 ⌊0.7 n⌋` of them and the preferred list the
remainder, their concatenation is exactly the found list, and the two lists
are disjoint. -/
theorem extractSkills_spec (t : JStr) :
    (extractSkillsFromText t).required =
        (skillsFound t).take (splitPoint (skillsFound t).length) ∧
    (extractSkillsFromText t).preferred =
        (skillsFound t).drop (splitPoint (skillsFound t).length) ∧
    (extractSkillsFromText t).required ++ (extractSkillsFromText t).preferred =
        skillsFound t ∧
    (∀ sk, sk ∈ (extractSkillsFromText t).required ++ (extractSkillsFromText t).preferred →
      sk ∈ commonSkills ∧ skillMentioned (toLowerStr t) sk = true) ∧
    List.Disjoint (extractSkillsFromText t).required (extractSkillsFromText t).preferred := by
  refine ⟨rfl, rfl, List.take_append_drop _ _, ?_, ?_⟩
  · intro sk hsk
    rw [show (extractSkillsFromText t).required ++ (extractSkillsFromText t).preferred =
          skillsFound t from List.take_append_drop _ _] at hsk
    exact List.mem_filter.mp hsk
  · exact List.disjoint_take_drop (List.Nodup.filter _ (by decide)) le_rfl

set_option maxRecDepth 100000 in
/-- Claim C6, witness: on the concrete text `exText`, JavaScript is among
the extracted skills, belongs to `commonSkills`, and is mentioned in the
text. -/
theorem extractSkills_spec_w :
    (js "JavaScript") ∈
        (extractSkillsFromText exText).required ++ (extractSkillsFromText exText).preferred ∧
    (js "JavaScript") ∈ commonSkills ∧
    skillMentioned (toLowerStr exText) (js "JavaScript") = true :=
  ⟨by decide, (extractSkills_spec exText).2.2.2.1 (js "JavaScript") (by decide)⟩

/-! ## Claim C2 -/

theorem jsWS_toLower {c : Char} (h : jsWS c = true) : Char.toLower c = c := by
  unfold jsWS at h
  have h7 : c = ' ' ∨ c = '\t' ∨ c = '\n' ∨ c = '\r' ∨ c = Char.ofNat 11 ∨
      c = Char.ofNat 12 ∨ c = Char.ofNat 160 := by
    simpa [or_assoc] using h
  rcases h7 with rfl | rfl | rfl | rfl | rfl | rfl | rfl <;> decide

theorem trim_all_ws {s : JStr} (h : trim s = []) : ∀ c ∈ s, jsWS c = true := by
  unfold trim at h
  rw [List.reverse_eq_nil_iff, List.dropWhile_eq_nil_iff] at h
  have hdrop : ∀ c ∈ trimL s, jsWS c = true := by
    intro c hc
    exact h c (List.mem_reverse.mpr hc)
  intro c hc
  rw [← List.takeWhile_append_dropWhile (p := jsWS) (l := s), List.mem_append] at hc
  rcases hc with hc | hc
  · exact List.mem_takeWhile_imp hc
  · exact hdrop c hc

theorem trim_ne_nil_of_situation {ans : JStr}
    (hsit : containsStr (toLowerStr ans) (js "situation") = true) :
    (trim ans).isEmpty = false := by
  rw [List.isEmpty_eq_false_iff_exists_mem]
  by_contra hno
  push_neg at hno
  have htrim : trim ans = [] := List.eq_nil_iff_forall_not_mem.mpr hno
  have hws := trim_all_ws htrim
  have hmap : toLowerStr ans = ans := by
    unfold toLowerStr
    calc ans.map Char.toLower = ans.map id :=
          List.map_congr_left (fun c hc => jsWS_toLower (hws c hc))
    _ = ans := List.map_id ans
  have hsub : (js "situation") ⊆ toLowerStr ans :=
    (containsStr_iff.mp hsit).subset
  have hs' : 's' ∈ ans := by
    rw [← hmap]
    exact hsub (by decide)
  have := hws 's' hs'
  simp [jsWS] at this

theorem joinSep_cons (sep x : JStr) (l : List JStr) :
    ∃ u, joinSep sep (x :: l) = x ++ u := by
  cases l with
  | nil => exact ⟨[], (List.append_nil x).symm⟩
  | cons y rest => exact ⟨sep ++ joinSep sep (y :: rest), by simp [joinSep]⟩

theorem contains_head_join (pre sep tail x : JStr) (l : List JStr) :
    containsStr (pre ++ joinSep sep (x :: l) ++ tail) x = true := by
  rw [containsStr_iff]
  obtain ⟨u, hu⟩ := joinSep_cons sep x l
  rw [hu]
  exact ⟨pre, u ++ tail, by simp⟩

theorem star_situation (ans : JStr) (q : Question)
    (hsit : containsStr (toLowerStr ans) (js "situation") = true) :
    2 ≤ (evaluateSTARMethod ans q).score ∧
    ∃ sa, (evaluateSTARMethod ans q).starAnalysis = some sa ∧
      containsStr sa (js "Situation") = true := by
  unfold evaluateSTARMethod
  simp only [hsit, Bool.true_or, if_true, List.singleton_append, List.cons_append]
  constructor
  · refine le_min (by norm_num) ?_
    refine le_add_of_le_of_nonneg
      (le_add_of_le_of_nonneg
        (le_add_of_le_of_nonneg
          (le_add_of_le_of_nonneg le_rfl ?_) ?_) ?_) ?_ <;>
      · apply qIteNonneg <;> norm_num
  · refine ⟨_, rfl, ?_⟩
    exact contains_head_join _ _ _ _ _
/-- Claim C2 (amended, proved): for a non-empty answer that the evaluator's
nonsense check does not flag, any occurrence of the word situation yields a
score of at least 2 and a STAR analysis listing Situation.  The original
claim only excluded the repetition and keyboard-mash patterns; it misses the
random-characters rule of `isNonsenseInput` (an all-letters answer without a
code keyword is rejected), which the accompanying counterexample exploits. -/
theorem evaluateBehavioral_star_situation (ans : JStr) (q : Question)
    (hne : ans ≠ []) (hnon : isNonsenseInput ans = false)
    (hsit : containsStr (toLowerStr ans) (js "situation") = true) :
    2 ≤ (evaluateBehavioral ans q).score ∧
    ∃ sa, (evaluateBehavioral ans q).starAnalysis = some sa ∧
      containsStr sa (js "Situation") = true := by
  have hEmpty : ans.isEmpty = false := by
    cases ans with
    | nil => exact absurd rfl hne
    | cons c cs => rfl
  have hTrim : (trim ans).isEmpty = false := trim_ne_nil_of_situation hsit
  have hred : evaluateBehavioral ans q = evaluateSTARMethod ans q := by
    unfold evaluateBehavioral
    simp [hEmpty, hTrim, hnon]
  rw [hred]
  exact star_situation ans q hsit

/-- Claim C2, counterexample: the answer "situation" is non-empty, has no
character repeated five times in a row and contains none of the mash
substrings, and contains the word situation — yet `evaluateBehavioral`
scores it 0 (not at least 2), because `isNonsenseInput`'s random-characters
rule rejects any all-letters input lacking a code keyword. -/
theorem behavioral_situation_zero_counterexample :
    (js "situation") ≠ [] ∧
    rep5 (cleanedOf (js "situation")) = false ∧
    hasMash (cleanedOf (js "situation")) = false ∧
    containsStr (toLowerStr (js "situation")) (js "situation") = true ∧
    (evaluateBehavioral (js "situation") qBehavioralEx).score = 0 ∧
    ¬ (2 ≤ (evaluateBehavioral (js "situation") qBehavioralEx).score) := by
  decide

/-- Claim C2, witness: a concrete punctuated answer containing situation
satisfies all hypotheses of the amended theorem. -/
theorem evaluateBehavioral_star_situation_w :
    2 ≤ (evaluateBehavioral wAns qBehavioralEx).score ∧
    ∃ sa, (evaluateBehavioral wAns qBehavioralEx).starAnalysis = some sa ∧
      containsStr sa (js "Situation") = true :=
  evaluateBehavioral_star_situation wAns qBehavioralEx (by decide) (by decide) (by decide)

/-! ## Claim C3 -/

set_option maxRecDepth 100000 in
/-- Claim C3, counterexample: with the same submission and question, the
result of `evaluateCode` changes when the host JavaScript engine's verdict
on `new Function(code)` changes — so the result is not computed purely from
substring checks on the texts: for `javascript` questions the code is
really handed to the host parser (lines 146-153). -/
theorem evaluateCode_depends_on_new_function :
    (evaluateCode (fun _ => true) cRev qRevJS).map (fun r => r.feedback) ≠
      (evaluateCode (fun _ => false) cRev qRevJS).map (fun r => r.feedback) := by
  decide

/-- Claim C3 (amended, proved): for every question whose effective language
is not `javascript`, `evaluateCode` is independent of the host parser — its
result is a pure function of substring/keyword/length checks on the
submission and question texts.  For `javascript` (or a missing language
field) the source additionally compiles the submission with `new Function`,
though it never executes it. -/
theorem evaluateCode_oracle_free_nonJS (o1 o2 : JStr → Bool) (code : JStr)
    (q : Question) (h : effectiveLanguage q ≠ js "javascript") :
    evaluateCode o1 code q = evaluateCode o2 code q := by
  simp only [evaluateCode, if_neg h]

/-- Claim C3, witness: at a concrete `sql` question the two oracles agree. -/
theorem evaluateCode_oracle_free_nonJS_w :
    evaluateCode (fun _ => true) cRev qSQLEx =
      evaluateCode (fun _ => false) cRev qSQLEx :=
  evaluateCode_oracle_free_nonJS (fun _ => true) (fun _ => false) cRev qSQLEx
    (by decide)

/-! ## Claim C9 -/

set_option maxHeartbeats 1000000 in
theorem evaluateJavaScript_score_bounds (ora : JStr → Bool) (code : JStr)
    (q : Question) :
    0 ≤ (evaluateJavaScript ora code q).score ∧
    (evaluateJavaScript ora code q).score ≤ 10 := by
  simp only [evaluateJavaScript]
  constructor
  · refine le_min (by norm_num) ?_
    split_ifs <;> norm_num
  · exact min_le_left _ _

theorem evaluatePython_score_bounds (code : JStr) (q : Question) :
    0 ≤ (evaluatePython code q).score ∧ (evaluatePython code q).score ≤ 10 := by
  simp only [evaluatePython]
  constructor
  · refine le_min (by norm_num) ?_
    split_ifs <;> norm_num
  · exact min_le_left _ _

theorem evaluateSQL_score_bounds (code : JStr) (q : Question) :
    0 ≤ (evaluateSQL code q).score ∧ (evaluateSQL code q).score ≤ 10 := by
  simp only [evaluateSQL]
  constructor
  · refine le_min (by norm_num) ?_
    split_ifs <;> norm_num
  · exact min_le_left _ _

theorem evaluateGenericCode_score_bounds (code : JStr) (q : Question) :
    0 ≤ (evaluateGenericCode code q).score ∧
    (evaluateGenericCode code q).score ≤ 10 := by
  simp only [evaluateGenericCode]
  constructor
  · refine le_min (by norm_num) ?_
    split_ifs <;> norm_num
  · exact min_le_left _ _

theorem evaluateByCategory_score_bounds (ans : JStr) (q : Question) :
    0 ≤ (evaluateByCategory ans q).score ∧
    (evaluateByCategory ans q).score ≤ 10 := by
  simp only [evaluateByCategory]
  constructor
  · refine le_min (by norm_num) ?_
    split_ifs <;> norm_num
  · exact min_le_left _ _

theorem evaluateSTARMethod_score_bounds (ans : JStr) (q : Question) :
    0 ≤ (evaluateSTARMethod ans q).score ∧
    (evaluateSTARMethod ans q).score ≤ 10 := by
  simp only [evaluateSTARMethod]
  constructor
  · refine le_min (by norm_num) ?_
    split_ifs <;> norm_num
  · exact min_le_left _ _

theorem evaluateCode_score_bounds (ora : JStr → Bool) (code : JStr) (q : Question) :
    ∀ r, evaluateCode ora code q = some r → 0 ≤ r.score ∧ r.score ≤ 10 := by
  intro r hr
  simp only [evaluateCode] at hr
  split_ifs at hr <;>
    first
      | exact Option.noConfusion hr
      | (obtain rfl := Option.some.inj hr.symm; first | exact evaluateJavaScript_score_bounds ora code q | exact evaluatePython_score_bounds code q | exact evaluateSQL_score_bounds code q | exact evaluateGenericCode_score_bounds code q | (dsimp only; norm_num))

theorem evaluateTheoretical_score_bounds (ans : JStr) (q : Question) :
    0 ≤ (evaluateTheoretical ans q).score ∧
    (evaluateTheoretical ans q).score ≤ 10 := by
  unfold evaluateTheoretical
  split_ifs
  · norm_num
  · norm_num
  · norm_num
  · exact evaluateByCategory_score_bounds ans q

theorem evaluateBehavioral_score_bounds (ans : JStr) (q : Question) :
    0 ≤ (evaluateBehavioral ans q).score ∧
    (evaluateBehavioral ans q).score ≤ 10 := by
  unfold evaluateBehavioral
  split_ifs
  · norm_num
  · norm_num
  · exact evaluateSTARMethod_score_bounds ans q

/-- Claim C9 (confirmed): every result the public evaluators return carries a
score between 0 and 10 — for `evaluateCode` this is stated for every result
it actually returns (its `java` branch returns nothing: the dispatch throws
there, see claim C4); `evaluateTheoretical` and `evaluateBehavioral`
always return, with scores in range. -/
theorem evaluator_scores_in_range (ora : JStr → Bool) (code ans : JStr)
    (q : Question) :
    (∀ r, evaluateCode ora code q = some r → 0 ≤ r.score ∧ r.score ≤ 10) ∧
    (0 ≤ (evaluateTheoretical ans q).score ∧ (evaluateTheoretical ans q).score ≤ 10) ∧
    (0 ≤ (evaluateBehavioral ans q).score ∧ (evaluateBehavioral ans q).score ≤ 10) :=
  ⟨evaluateCode_score_bounds ora code q,
   evaluateTheoretical_score_bounds ans q,
   evaluateBehavioral_score_bounds ans q⟩

/-- The concrete code result produced for `cRev` on the JavaScript question. -/
def wCodeRes : CodeResult :=
  (evaluateCode (fun _ => true) cRev qRevJS).getD
    { score := 0, feedback := [], isCorrect := false }

set_option maxRecDepth 100000 in
/-- Claim C9, witness: the bound instantiated at a concrete returned result. -/
theorem evaluator_scores_in_range_w :
    0 ≤ wCodeRes.score ∧ wCodeRes.score ≤ 10 :=
  (evaluator_scores_in_range (fun _ => true) cRev wAns qRevJS).1 wCodeRes rfl

/-! ## Claim C10 -/

theorem inv_submit (a : AnswerR) (s : StoreState) (h : Inv s) :
    Inv (submitAnswer a s) := by
  unfold submitAnswer
  cases hs : s.currentSession with
  | none => exact h
  | some sess =>
    intro hact
    obtain ⟨sess0, hs0, hlt, hq⟩ := h hact
    have he : sess0 = sess := Option.some.inj (hs0.symm.trans hs)
    subst he
    exact ⟨{ sess0 with answers := sess0.answers ++ [a] }, rfl, hlt, hq⟩

theorem inv_retry (s : StoreState) (h : Inv s) : Inv (retryQuestion s) := by
  unfold retryQuestion
  cases hs : s.currentSession with
  | none => exact h
  | some sess =>
    intro hact
    obtain ⟨sess0, hs0, hlt, hq⟩ := h hact
    have he : sess0 = sess := Option.some.inj (hs0.symm.trans hs)
    subst he
    refine ⟨_, rfl, hlt, hq⟩

theorem inv_next (now : ℕ) (s : StoreState) (h : Inv s) :
    Inv (nextQuestion now s) := by
  unfold nextQuestion
  cases hs : s.currentSession with
  | none => exact h
  | some sess =>
    dsimp only
    by_cases hlt : s.currentQuestionIndex + 1 < sess.questions.length
    · rw [dif_pos hlt]
      intro _
      refine ⟨sess, rfl, hlt, ?_⟩
      show some (sess.questions.get ⟨s.currentQuestionIndex + 1, hlt⟩) =
        sess.questions[s.currentQuestionIndex + 1]?
      rw [List.getElem?_eq_getElem hlt]
      rfl
    · rw [dif_neg hlt]
      unfold endInterview
      rw [hs]
      intro hact
      exact absurd hact (by simp)

theorem inv_runActs (acts : List Act) :
    ∀ s : StoreState, Inv s → Inv (runActs acts s) := by
  induction acts with
  | nil => intro s h; exact h
  | cons a acts ih =>
    intro s h
    show Inv (runActs acts (stepAct a s))
    apply ih
    cases a with
    | submit x => exact inv_submit x s h
    | retry => exact inv_retry s h
    | next n => exact inv_next n s h

theorem inv_start (now : ℕ) (qs : List Question) (s0 : StoreState)
    (hne : qs ≠ []) : Inv (startInterview now qs s0) := by
  intro _
  refine ⟨_, rfl, ?_, ?_⟩
  · show 0 < qs.length
    exact List.length_pos.mpr hne
  · show qs.head? = qs[0]?
    cases qs with
    | nil => exact absurd rfl hne
    | cons a l => simp

/-- Claim C10 (amended, proved): starting an interview with a non-empty
question list and running any sequence of submit/retry/next actions keeps the
session invariant — while the interview is active the index is in bounds and
the current question is the indexed question of the session; moreover
`nextQuestion` (from any state holding a session) either advances the index
by exactly one, or ends the interview (deactivating it with phase complete)
when no questions remain.  The claim as stated, without the non-emptiness
proviso, is refuted by the accompanying counterexample. -/
theorem interview_session_invariant (now : ℕ) (qs : List Question)
    (acts : List Act) (s0 : StoreState) (hne : qs ≠ []) :
    Inv (runActs acts (startInterview now qs s0)) ∧
    (∀ (n : ℕ) (s : StoreState) (sess : InterviewSession),
      s.currentSession = some sess →
      ((nextQuestion n s).currentQuestionIndex = s.currentQuestionIndex + 1 ∧
       (nextQuestion n s).isInterviewActive = s.isInterviewActive) ∨
      ((nextQuestion n s).isInterviewActive = false ∧
       (nextQuestion n s).interviewPhase = .complete ∧
       ¬ (s.currentQuestionIndex + 1 < sess.questions.length))) := by
  constructor
  · exact inv_runActs acts _ (inv_start now qs s0 hne)
  · intro n s sess hs
    unfold nextQuestion
    rw [hs]
    dsimp only
    by_cases hlt : s.currentQuestionIndex + 1 < sess.questions.length
    · left
      rw [dif_pos hlt]
      exact ⟨rfl, rfl⟩
    · right
      rw [dif_neg hlt]
      unfold endInterview
      rw [hs]
      exact ⟨rfl, rfl, hlt⟩

/-- The empty session built by `startInterview 0 [] initialState`. -/
def emptySession : InterviewSession :=
  { id := natId 0, userId := js "user", questions := [], answers := [],
    startTime := 0, endTime := none, overallScore := 0, skillScores := [],
    currentQuestionIndex := 0, totalQuestions := 0, badges := [], xpEarned := 0 }

/-- Claim C10, counterexample: calling `startInterview` with an empty
question list leaves the store active (`isInterviewActive = true`) with
`currentQuestionIndex = 0` while the session holds zero questions, so the
claimed invariant `currentQuestionIndex < questions.length` fails in a
reachable active state. -/
theorem startInterview_empty_questions_counterexample :
    (startInterview 0 [] initialState).isInterviewActive = true ∧
    ¬ Inv (startInterview 0 [] initialState) := by
  refine ⟨rfl, fun h => ?_⟩
  obtain ⟨sess, hs, hlt, -⟩ := h rfl
  have h2 : (startInterview 0 [] initialState).currentSession = some emptySession := rfl
  have he : emptySession = sess := Option.some.inj (h2.symm.trans hs)
  rw [← he] at hlt
  simp [emptySession] at hlt

/-- The singleton question list of the C10 witness. -/
def qListW : List Question := [qBehavioralEx]

/-- The state just after starting an interview on `qListW`. -/
def wStart : StoreState := startInterview 0 qListW initialState

/-- The session held by `wStart`. -/
def wSess : InterviewSession :=
  { id := natId 0, userId := js "user", questions := qListW, answers := [],
    startTime := 0, endTime := none, overallScore := 0, skillScores := [],
    currentQuestionIndex := 0, totalQuestions := 1, badges := [], xpEarned := 0 }

/-- Claim C10, witness: the invariant instantiated at a concrete non-empty
interview, and the `nextQuestion` dichotomy at its start state. -/
theorem interview_session_invariant_w :
    Inv (runActs [] (startInterview 0 qListW initialState)) ∧
    (((nextQuestion 1 wStart).currentQuestionIndex = wStart.currentQuestionIndex + 1 ∧
      (nextQuestion 1 wStart).isInterviewActive = wStart.isInterviewActive) ∨
     ((nextQuestion 1 wStart).isInterviewActive = false ∧
      (nextQuestion 1 wStart).interviewPhase = .complete ∧
      ¬ (wStart.currentQuestionIndex + 1 < wSess.questions.length))) :=
  ⟨(interview_session_invariant 0 qListW [] initialState (by simp [qListW])).1,
   (interview_session_invariant 0 qListW [] initialState (by simp [qListW])).2
     1 wStart wSess rfl⟩

end AiJobHelper
